import Mathlib

/-!
Shallow embedding of `convert_to_word.py`, a utility script that converts a
fixed Markdown file to a Word document by shelling out to the external tool
`pandoc`, falling back to printing manual instructions when the tool is absent
or the conversion fails.

The external world is modelled by `Env`: whether `pandoc` is installed, the
exit codes and stream texts of the two subprocess invocations, whether the
input file exists, the document content the tool would produce, and the
working directory. Observable behaviour is modelled explicitly: every
`print` call contributes one string to a stdout list, every actually spawned
subprocess and every file-existence test contributes an `Event` to an ordered
trace, and the filesystem slot for the output file is threaded through as
`Fs`. Python exceptions are modelled by `Except PyExn`; the script's
`try/except` blocks become exhaustive matches on the error constructors they
catch.
-/

namespace ConvertToWord

/-- `input_file` from `convert_with_pandoc` (line 21 of the source). -/
def input_file : String := "Game_Architecture_Documentation.md"

/-- `output_file` from `convert_with_pandoc` (line 22 of the source). -/
def output_file : String := "Game_Architecture_Documentation.docx"

/-- Python string repetition `s * n` (used for the `"="*60` separators). -/
def times (n : Nat) (s : String) : String := String.join (List.replicate n s)

/-- A single-quote character, as a string (appears inside several printed lines). -/
def sq : String := String.singleton (Char.ofNat 39)

/-- The value of a completed `subprocess.run` call: exit status and captured streams. -/
structure RunResult where
  returncode : Int
  stdout : String
  stderr : String
deriving DecidableEq, Repr

/-- The Python exceptions that `subprocess.run` can raise in this program:
`CalledProcessError` (from `check=True` on a non-zero exit) and
`FileNotFoundError` (executable missing). -/
inductive PyExn where
  | calledProcessError (returncode : Int)
  | fileNotFoundError
deriving DecidableEq, Repr

/-- Observable trace events: an actually spawned subprocess (with its argument
list and whether its output is captured), and a file-existence test. -/
inductive Event where
  | spawn (args : List String) (captured : Bool)
  | checkExists (path : String)
deriving DecidableEq, Repr

/-- The external world as seen by one run of the script. -/
structure Env where
  /-- whether the `pandoc` executable can be found and exec'd -/
  pandocInstalled : Bool
  /-- exit status of `pandoc --version` (when installed) -/
  versionExit : Int
  /-- stdout text of `pandoc --version` -/
  versionStdout : String
  /-- stderr text of `pandoc --version` -/
  versionStderr : String
  /-- whether `Game_Architecture_Documentation.md` exists in the working directory -/
  inputExists : Bool
  /-- exit status of the conversion invocation (when installed) -/
  convertExit : Int
  /-- stdout text of the conversion invocation -/
  convertStdout : String
  /-- stderr text of the conversion invocation -/
  convertStderr : String
  /-- the docx bytes pandoc writes to the output file on a successful conversion -/
  toolOutput : String
  /-- current working directory (for `os.path.abspath`) -/
  cwd : String
deriving DecidableEq, Repr

/-- The filesystem state the script can affect: the slot for the fixed output
file, plus the rest of the directory, which the script never touches. -/
structure Fs where
  outputFile : Option String
  others : List (String × String)
deriving DecidableEq, Repr

/-- Argument list of the probe invocation (line 14 of the source). -/
def pandocVersionCmd : List String := ["pandoc", "--version"]

/-- `cmd`, the fixed conversion argument list (lines 30-39 of the source). -/
def convertCmd : List String :=
  ["pandoc", input_file, "-o", output_file, "--from", "markdown", "--to", "docx",
   "--standalone", "--toc", "--number-sections"]

/-- What a completed subprocess returns, per argument list. -/
def runResultFor (env : Env) (args : List String) : RunResult :=
  if args = pandocVersionCmd then ⟨env.versionExit, env.versionStdout, env.versionStderr⟩
  else if args = convertCmd then ⟨env.convertExit, env.convertStdout, env.convertStderr⟩
  else ⟨0, "", ""⟩

/-- `subprocess.run(args, capture_output=captured, check=chk)`.
If the executable is missing, `FileNotFoundError` is raised before any child
process exists, so no `spawn` event is recorded and nothing is shown.
Otherwise the child runs; when output is not captured its streams would go to
the console (second component). With `chk` set, a non-zero exit raises
`CalledProcessError`. -/
def subprocessRun (env : Env) (args : List String) (captured chk : Bool) :
    Except PyExn RunResult × List String × List Event :=
  if env.pandocInstalled then
    let r := runResultFor env args
    let shown : List String := if captured then [] else [r.stdout, r.stderr]
    if chk ∧ r.returncode ≠ 0 then
      (Except.error (PyExn.calledProcessError r.returncode), shown, [Event.spawn args captured])
    else
      (Except.ok r, shown, [Event.spawn args captured])
  else
    (Except.error PyExn.fileNotFoundError, [], [])

/-- Result of `check_pandoc`: the returned boolean, the console output the
call produces, and the events it generates. -/
structure ProbeResult where
  ok : Bool
  shown : List String
  events : List Event
deriving DecidableEq, Repr

/-- `check_pandoc` (lines 11-17): runs `pandoc --version` with output captured
and `check=True`; returns `True` on success, `False` when either
`CalledProcessError` or `FileNotFoundError` is raised. -/
def check_pandoc (env : Env) : ProbeResult :=
  match subprocessRun env pandocVersionCmd true true with
  | (Except.ok _, shown, evs) => ⟨true, shown, evs⟩
  | (Except.error (PyExn.calledProcessError _), shown, evs) => ⟨false, shown, evs⟩
  | (Except.error PyExn.fileNotFoundError, shown, evs) => ⟨false, shown, evs⟩

/-- `os.path.abspath p` for a relative path `p`: the working directory joined
with `p`. -/
def abspath (env : Env) (p : String) : String := env.cwd ++ "/" ++ p

/-- The message a caught exception is printed as (`f"... {e}"`). -/
def exnMessage : PyExn → String
  | PyExn.calledProcessError c => "CalledProcessError " ++ toString c
  | PyExn.fileNotFoundError => "FileNotFoundError"

/-- Result of `convert_with_pandoc`: the returned boolean, its console
output, its events, and the filesystem after the call. -/
structure ConvResult where
  ok : Bool
  shown : List String
  events : List Event
  fs : Fs
deriving DecidableEq, Repr

/-- `convert_with_pandoc` (lines 19-53): checks that the input file exists
(reporting and returning `False` if not), then runs the fixed `pandoc`
command with output captured and no `check`; on exit status 0 prints the
success lines (the second referencing the absolute output path) and returns
`True`, on a non-zero exit prints the captured stderr and returns `False`;
any raised exception is caught by the `except Exception` clause, printed,
and turned into `False`. On success the tool has created or overwritten the
output file. -/
def convert_with_pandoc (env : Env) (fs : Fs) : ConvResult :=
  if env.inputExists = false then
    ⟨false, ["Error: " ++ input_file ++ " not found!"], [Event.checkExists input_file], fs⟩
  else
    match subprocessRun env convertCmd true false with
    | (Except.ok r, shown, evs) =>
      if r.returncode = 0 then
        ⟨true,
         shown ++ ["✅ Successfully converted to " ++ output_file,
                   "📄 File location: " ++ abspath env output_file],
         Event.checkExists input_file :: evs,
         ⟨some env.toolOutput, fs.others⟩⟩
      else
        ⟨false,
         shown ++ ["❌ Conversion failed: " ++ r.stderr],
         Event.checkExists input_file :: evs, fs⟩
    | (Except.error e, shown, evs) =>
      ⟨false,
       shown ++ ["❌ Error during conversion: " ++ exnMessage e],
       Event.checkExists input_file :: evs, fs⟩

/-- `manual_conversion_instructions` (lines 55-76): the fixed sequence of
printed lines, one list element per `print` call. -/
def manual_conversion_instructions : List String :=
  ["\n" ++ times 60 "=",
   "MANUAL CONVERSION INSTRUCTIONS",
   times 60 "=",
   "\nIf pandoc is not available, you can manually convert the documentation:",
   "\n1. 📋 Copy the content from " ++ sq ++ "Game_Architecture_Documentation.md" ++ sq,
   "2. 📝 Open Microsoft Word",
   "3. 📄 Create a new document",
   "4. 📋 Paste the content",
   "5. 🎨 Apply formatting:",
   "   - Use Heading 1 for main sections",
   "   - Use Heading 2 for subsections",
   "   - Use Heading 3 for sub-subsections",
   "   - Format code blocks with monospace font",
   "   - Add page breaks between major sections",
   "6. 📊 For the architecture diagram:",
   "   - Copy the ASCII diagram",
   "   - Use a monospace font (like Courier New)",
   "   - Or recreate it using Word" ++ sq ++ "s drawing tools",
   "7. 💾 Save as .docx format",
   "\n" ++ times 60 "="]

/-- The two header lines `main` prints first (lines 80-81). -/
def mainHeader : List String :=
  ["🎮 Game Architecture Documentation Converter", times 50 "="]

/-- The closing tips `main` always prints (lines 96-100). -/
def additional_tips : List String :=
  ["\n📚 Additional Tips:",
   "- The Markdown file contains all the content you need",
   "- The ASCII diagram can be enhanced with Word" ++ sq ++ "s drawing tools",
   "- Consider adding screenshots of the game for visual appeal",
   "- Use Word" ++ sq ++ "s built-in table of contents feature"]

/-- Result of one run of the script: everything printed to stdout in order,
the ordered event trace, the final filesystem, and the argument of a
`sys.exit` call if one was made (the script never makes one). -/
structure MainResult where
  stdout : List String
  events : List Event
  fs : Fs
  sysExitCalled : Option Nat
deriving DecidableEq, Repr

/-- `main` (lines 78-100): prints the header, probes for pandoc; if found,
attempts the conversion, printing the celebration lines on success and the
warning plus the manual instructions on failure; if not found, prints the
not-found line and the manual instructions; always ends with the tips.
`sys.exit` is never called. -/
def main (env : Env) (fs : Fs) : MainResult :=
  let p := check_pandoc env
  if p.ok then
    let c := convert_with_pandoc env fs
    if c.ok then
      ⟨mainHeader ++ p.shown ++ ["✅ Pandoc found! Attempting automatic conversion..."] ++
         c.shown ++
         ["\n🎉 Conversion completed successfully!",
          "📖 You can now open the Word document and format it as needed."] ++
         additional_tips,
       p.events ++ c.events, c.fs, none⟩
    else
      ⟨mainHeader ++ p.shown ++ ["✅ Pandoc found! Attempting automatic conversion..."] ++
         c.shown ++
         ["\n⚠️  Automatic conversion failed. Using manual instructions..."] ++
         manual_conversion_instructions ++ additional_tips,
       p.events ++ c.events, c.fs, none⟩
  else
    ⟨mainHeader ++ p.shown ++
       ["❌ Pandoc not found. Using manual conversion instructions..."] ++
       manual_conversion_instructions ++ additional_tips,
     p.events, fs, none⟩

/-- The process exit status: the argument of the `sys.exit` call if one
happened, otherwise 0 (CPython exits 0 when the script returns normally). -/
def processExitCode (r : MainResult) : Nat := r.sysExitCalled.getD 0

/-- Whether an event is a spawn of the conversion command. -/
def isConvertSpawn : Event → Bool
  | Event.spawn args _ => args = convertCmd
  | Event.checkExists _ => false

/-- Whether an event is a subprocess spawn at all. -/
def isSpawnEvent : Event → Bool
  | Event.spawn _ _ => true
  | Event.checkExists _ => false

/-- Whether every spawn event in a trace had its output captured. -/
def spawnsAllCaptured (evs : List Event) : Bool :=
  evs.all fun e =>
    match e with
    | Event.spawn _ c => c
    | Event.checkExists _ => true

/-- Whether, in a trace, the probe spawn strictly precedes any existence
check of the input file: vacuously true when no existence check occurs,
otherwise the trace must start with the probe spawn (so every existence
check sits at a later position). -/
def probeBeforeExistsCheck (evs : List Event) : Bool :=
  !decide (Event.checkExists input_file ∈ evs) ||
    decide (evs.head? = some (Event.spawn pandocVersionCmd true))

/-- A run in which everything works: tool installed, both invocations exit 0,
input file present. -/
def envA : Env := ⟨true, 0, "pandoc 3.1.9", "", true, 0, "", "", "DOCXDATA", "/home/user/duck"⟩

/-- A run in which the tool is installed and the input file exists but the
conversion exits non-zero with diagnostic text on stderr. -/
def envB : Env := ⟨true, 0, "pandoc 3.1.9", "", true, 2, "", "pandoc: unrecognized option", "", "/home/user/duck"⟩

/-- A run in which the tool is missing and the input file is missing. -/
def envC : Env := ⟨false, 0, "", "", false, 0, "", "", "", "/home/user/duck"⟩

/-- A run in which the tool is installed and healthy but the input file is
missing. -/
def envD : Env := ⟨true, 0, "pandoc 3.1.9", "", false, 0, "", "", "DOCXDATA", "/home/user/duck"⟩

/-- An initial filesystem with no output file. -/
def fs0 : Fs := ⟨none, []⟩

/-! ### Branch characterizations -/

theorem runResultFor_version (env : Env) :
    runResultFor env pandocVersionCmd = ⟨env.versionExit, env.versionStdout, env.versionStderr⟩ := by
  rw [runResultFor, if_pos rfl]

theorem runResultFor_convert (env : Env) :
    runResultFor env convertCmd = ⟨env.convertExit, env.convertStdout, env.convertStderr⟩ := by
  rw [runResultFor, if_neg (by decide), if_pos rfl]

theorem check_pandoc_missing (env : Env) (h : env.pandocInstalled = false) :
    check_pandoc env = ⟨false, [], []⟩ := by
  simp [check_pandoc, subprocessRun, h]

theorem check_pandoc_bad_version (env : Env) (h1 : env.pandocInstalled = true)
    (h2 : env.versionExit ≠ 0) :
    check_pandoc env = ⟨false, [], [Event.spawn pandocVersionCmd true]⟩ := by
  simp [check_pandoc, subprocessRun, runResultFor_version, h1, h2]

theorem check_pandoc_ok (env : Env) (h1 : env.pandocInstalled = true)
    (h2 : env.versionExit = 0) :
    check_pandoc env = ⟨true, [], [Event.spawn pandocVersionCmd true]⟩ := by
  simp [check_pandoc, subprocessRun, runResultFor_version, h1, h2]

theorem convert_no_input (env : Env) (fs : Fs) (h : env.inputExists = false) :
    convert_with_pandoc env fs =
      ⟨false, ["Error: " ++ input_file ++ " not found!"], [Event.checkExists input_file], fs⟩ := by
  simp [convert_with_pandoc, h]

theorem convert_missing_tool (env : Env) (fs : Fs) (h1 : env.inputExists = true)
    (h2 : env.pandocInstalled = false) :
    convert_with_pandoc env fs =
      ⟨false, ["❌ Error during conversion: " ++ exnMessage PyExn.fileNotFoundError],
       [Event.checkExists input_file], fs⟩ := by
  simp [convert_with_pandoc, subprocessRun, h1, h2]

theorem convert_ok (env : Env) (fs : Fs) (h1 : env.inputExists = true)
    (h2 : env.pandocInstalled = true) (h3 : env.convertExit = 0) :
    convert_with_pandoc env fs =
      ⟨true,
       ["✅ Successfully converted to " ++ output_file,
        "📄 File location: " ++ abspath env output_file],
       [Event.checkExists input_file, Event.spawn convertCmd true],
       ⟨some env.toolOutput, fs.others⟩⟩ := by
  simp [convert_with_pandoc, subprocessRun, runResultFor_convert, h1, h2, h3]

theorem convert_fail (env : Env) (fs : Fs) (h1 : env.inputExists = true)
    (h2 : env.pandocInstalled = true) (h3 : env.convertExit ≠ 0) :
    convert_with_pandoc env fs =
      ⟨false,
       ["❌ Conversion failed: " ++ env.convertStderr],
       [Event.checkExists input_file, Event.spawn convertCmd true], fs⟩ := by
  simp [convert_with_pandoc, subprocessRun, runResultFor_convert, h1, h2, h3]

theorem main_no_tool (env : Env) (fs : Fs) (h : env.pandocInstalled = false) :
    main env fs =
      ⟨mainHeader ++ ["❌ Pandoc not found. Using manual conversion instructions..."] ++
         manual_conversion_instructions ++ additional_tips,
       [], fs, none⟩ := by
  simp [main, check_pandoc_missing env h]

theorem main_bad_version (env : Env) (fs : Fs) (h1 : env.pandocInstalled = true)
    (h2 : env.versionExit ≠ 0) :
    main env fs =
      ⟨mainHeader ++ ["❌ Pandoc not found. Using manual conversion instructions..."] ++
         manual_conversion_instructions ++ additional_tips,
       [Event.spawn pandocVersionCmd true], fs, none⟩ := by
  simp [main, check_pandoc_bad_version env h1 h2]

theorem main_no_input (env : Env) (fs : Fs) (h1 : env.pandocInstalled = true)
    (h2 : env.versionExit = 0) (h3 : env.inputExists = false) :
    main env fs =
      ⟨mainHeader ++ ["✅ Pandoc found! Attempting automatic conversion..."] ++
         ["Error: " ++ input_file ++ " not found!"] ++
         ["\n⚠️  Automatic conversion failed. Using manual instructions..."] ++
         manual_conversion_instructions ++ additional_tips,
       [Event.spawn pandocVersionCmd true, Event.checkExists input_file], fs, none⟩ := by
  simp [main, check_pandoc_ok env h1 h2, convert_no_input env fs h3]

theorem main_convert_ok (env : Env) (fs : Fs) (h1 : env.pandocInstalled = true)
    (h2 : env.versionExit = 0) (h3 : env.inputExists = true) (h4 : env.convertExit = 0) :
    main env fs =
      ⟨mainHeader ++ ["✅ Pandoc found! Attempting automatic conversion..."] ++
         ["✅ Successfully converted to " ++ output_file,
          "📄 File location: " ++ abspath env output_file] ++
         ["\n🎉 Conversion completed successfully!",
          "📖 You can now open the Word document and format it as needed."] ++
         additional_tips,
       [Event.spawn pandocVersionCmd true, Event.checkExists input_file,
        Event.spawn convertCmd true],
       ⟨some env.toolOutput, fs.others⟩, none⟩ := by
  simp [main, check_pandoc_ok env h1 h2, convert_ok env fs h3 h1 h4]

theorem main_convert_fail (env : Env) (fs : Fs) (h1 : env.pandocInstalled = true)
    (h2 : env.versionExit = 0) (h3 : env.inputExists = true) (h4 : env.convertExit ≠ 0) :
    main env fs =
      ⟨mainHeader ++ ["✅ Pandoc found! Attempting automatic conversion..."] ++
         ["❌ Conversion failed: " ++ env.convertStderr] ++
         ["\n⚠️  Automatic conversion failed. Using manual instructions..."] ++
         manual_conversion_instructions ++ additional_tips,
       [Event.spawn pandocVersionCmd true, Event.checkExists input_file,
        Event.spawn convertCmd true], fs, none⟩ := by
  simp [main, check_pandoc_ok env h1 h2, convert_fail env fs h3 h1 h4]

/-! ### Claims -/

/-- Claim C3: `check_pandoc` returns a boolean that is true exactly when the
external tool executed and returned a success status, and false when the
tool is missing or returns a non-success status. -/
theorem claim_C3 (env : Env) :
    (check_pandoc env).ok = true ↔ env.pandocInstalled = true ∧ env.versionExit = 0 := by
  constructor
  · intro h
    by_cases h1 : env.pandocInstalled = true
    · by_cases h2 : env.versionExit = 0
      · exact ⟨h1, h2⟩
      · rw [check_pandoc_bad_version env h1 h2] at h
        exact absurd h (by decide)
    · rw [check_pandoc_missing env (by simpa using h1)] at h
      exact absurd h (by decide)
  · rintro ⟨h1, h2⟩
    rw [check_pandoc_ok env h1 h2]

theorem claim_C3_witness : (check_pandoc envA).ok = true :=
  (claim_C3 envA).mpr ⟨rfl, rfl⟩

/-- Claim C8: the program defines no distinct machine-readable exit codes:
every run that completes normally exits with status 0, whether the
conversion succeeded or totally failed (the script never calls `sys.exit`). -/
theorem claim_C8 (env : Env) (fs : Fs) : processExitCode (main env fs) = 0 := by
  by_cases h1 : env.pandocInstalled = true
  · by_cases h2 : env.versionExit = 0
    · by_cases h3 : env.inputExists = true
      · by_cases h4 : env.convertExit = 0
        · rw [main_convert_ok env fs h1 h2 h3 h4]; rfl
        · rw [main_convert_fail env fs h1 h2 h3 h4]; rfl
      · rw [main_no_input env fs h1 h2 (by simpa using h3)]; rfl
    · rw [main_bad_version env fs h1 h2]; rfl
  · rw [main_no_tool env fs (by simpa using h1)]; rfl

theorem claim_C8_witness :
    processExitCode (main envA fs0) = 0 ∧ processExitCode (main envC fs0) = 0 :=
  ⟨claim_C8 envA fs0, claim_C8 envC fs0⟩

/-- Claim C9: the tool-availability probe shows nothing to the user: its
subprocess is spawned with output captured, and the probe itself writes
nothing to the program's console. -/
theorem claim_C9 (env : Env) :
    (check_pandoc env).shown = [] ∧ spawnsAllCaptured (check_pandoc env).events = true := by
  by_cases h1 : env.pandocInstalled = true
  · by_cases h2 : env.versionExit = 0
    · rw [check_pandoc_ok env h1 h2]; exact ⟨rfl, rfl⟩
    · rw [check_pandoc_bad_version env h1 h2]; exact ⟨rfl, rfl⟩
  · rw [check_pandoc_missing env (by simpa using h1)]; exact ⟨rfl, rfl⟩

theorem claim_C9_witness :
    (check_pandoc envA).shown = [] ∧ spawnsAllCaptured (check_pandoc envA).events = true :=
  claim_C9 envA

/-- Claim C10: in every run the probe spawn strictly precedes any existence
check of the input file, and when the tool is installed but the input file
is absent, exactly one external-tool subprocess is still spawned (the
probe). -/
theorem claim_C10 (env : Env) (fs : Fs) :
    probeBeforeExistsCheck (main env fs).events = true ∧
    (env.pandocInstalled = true → env.inputExists = false →
      ((main env fs).events.filter isSpawnEvent).length = 1 ∧
      Event.spawn pandocVersionCmd true ∈ (main env fs).events) := by
  by_cases h1 : env.pandocInstalled = true
  · by_cases h2 : env.versionExit = 0
    · by_cases h3 : env.inputExists = true
      · by_cases h4 : env.convertExit = 0
        · rw [main_convert_ok env fs h1 h2 h3 h4]
          exact ⟨by rfl, fun _ hc => absurd h3 (by simp [hc])⟩
        · rw [main_convert_fail env fs h1 h2 h3 h4]
          exact ⟨by rfl, fun _ hc => absurd h3 (by simp [hc])⟩
      · rw [main_no_input env fs h1 h2 (by simpa using h3)]
        exact ⟨by rfl, fun _ _ => ⟨by rfl, by simp⟩⟩
    · rw [main_bad_version env fs h1 h2]
      exact ⟨by rfl, fun _ _ => ⟨by rfl, by simp⟩⟩
  · rw [main_no_tool env fs (by simpa using h1)]
    exact ⟨by rfl, fun hc _ => absurd h1 (by simp [hc])⟩

theorem claim_C10_witness :
    ((main envD fs0).events.filter isSpawnEvent).length = 1 ∧
    Event.spawn pandocVersionCmd true ∈ (main envD fs0).events :=
  (claim_C10 envD fs0).2 rfl rfl

/-- Claim C4: when the input file exists and the external tool is invoked,
`convert_with_pandoc` returns success if and only if the tool exits 0; on
success it prints a success message referencing the absolute output path,
and on a non-zero exit it returns failure and prints a failure message
containing the tool's captured stderr text. -/
theorem claim_C4 (env : Env) (fs : Fs) (h1 : env.inputExists = true)
    (h2 : env.pandocInstalled = true) :
    ((convert_with_pandoc env fs).ok = true ↔ env.convertExit = 0) ∧
    (env.convertExit = 0 →
      ("✅ Successfully converted to " ++ output_file) ∈ (convert_with_pandoc env fs).shown ∧
      ("📄 File location: " ++ abspath env output_file) ∈ (convert_with_pandoc env fs).shown) ∧
    (env.convertExit ≠ 0 →
      (convert_with_pandoc env fs).ok = false ∧
      ("❌ Conversion failed: " ++ env.convertStderr) ∈ (convert_with_pandoc env fs).shown) := by
  by_cases h3 : env.convertExit = 0
  · rw [convert_ok env fs h1 h2 h3]
    exact ⟨by simp [h3], fun _ => ⟨by simp, by simp⟩, fun hc => absurd h3 hc⟩
  · rw [convert_fail env fs h1 h2 h3]
    exact ⟨by simp [h3], fun hc => absurd hc h3, fun _ => ⟨rfl, by simp⟩⟩

theorem claim_C4_witness :
    (convert_with_pandoc envB fs0).ok = false ∧
    ("❌ Conversion failed: " ++ envB.convertStderr) ∈ (convert_with_pandoc envB fs0).shown :=
  (claim_C4 envB fs0 rfl rfl).2.2 (by decide)

/-- Claim C5: when the external tool is present (the probe succeeds) and the
input file exists, exactly one conversion subprocess is spawned — no
retries — and its argument list is the fixed one selecting source format
markdown, target format docx, the standalone flag, the table-of-contents
flag, and the section-numbering flag. -/
theorem claim_C5 (env : Env) (fs : Fs) (h1 : env.pandocInstalled = true)
    (h2 : env.versionExit = 0) (h3 : env.inputExists = true) :
    ((main env fs).events.filter isConvertSpawn).length = 1 ∧
    Event.spawn convertCmd true ∈ (main env fs).events ∧
    convertCmd = ["pandoc", input_file, "-o", output_file, "--from", "markdown",
      "--to", "docx", "--standalone", "--toc", "--number-sections"] := by
  by_cases h4 : env.convertExit = 0
  · rw [main_convert_ok env fs h1 h2 h3 h4]
    exact ⟨by rfl, by simp, rfl⟩
  · rw [main_convert_fail env fs h1 h2 h3 h4]
    exact ⟨by rfl, by simp, rfl⟩

theorem claim_C5_witness :
    ((main envA fs0).events.filter isConvertSpawn).length = 1 ∧
    Event.spawn convertCmd true ∈ (main envA fs0).events ∧
    convertCmd = ["pandoc", input_file, "-o", output_file, "--from", "markdown",
      "--to", "docx", "--standalone", "--toc", "--number-sections"] :=
  claim_C5 envA fs0 rfl rfl rfl

/-- Claim C7: running the conversion twice in succession, with the input
file existing and the external tool succeeding both times, reaches the same
output artifact state: the single output-file slot holds the tool's
document (overwritten in place), and the rest of the directory is
untouched. -/
theorem claim_C7 (env : Env) (fs : Fs) (h1 : env.inputExists = true)
    (h2 : env.pandocInstalled = true) (h3 : env.convertExit = 0) :
    (convert_with_pandoc env ((convert_with_pandoc env fs).fs)).fs =
      (convert_with_pandoc env fs).fs ∧
    (convert_with_pandoc env fs).fs.outputFile = some env.toolOutput ∧
    (convert_with_pandoc env fs).fs.others = fs.others := by
  rw [convert_ok env fs h1 h2 h3]
  refine ⟨?_, rfl, rfl⟩
  rw [convert_ok env ⟨some env.toolOutput, fs.others⟩ h1 h2 h3]

theorem claim_C7_witness :
    (convert_with_pandoc envA ((convert_with_pandoc envA fs0).fs)).fs =
      (convert_with_pandoc envA fs0).fs ∧
    (convert_with_pandoc envA fs0).fs.outputFile = some envA.toolOutput ∧
    (convert_with_pandoc envA fs0).fs.others = fs0.others :=
  claim_C7 envA fs0 rfl rfl rfl

/-- Claim C2: the top-level control flow is a single decision tree: when the
probe succeeds, the conversion is attempted (it begins with the existence
check); if it succeeds a success message is printed, if it fails the failure
warning is printed followed immediately by the manual instructions; when
the probe fails, the manual instructions are printed directly and no
conversion subprocess is ever spawned. -/
theorem claim_C2 (env : Env) (fs : Fs) :
    ((check_pandoc env).ok = true →
      Event.checkExists input_file ∈ (main env fs).events ∧
      ((convert_with_pandoc env fs).ok = true →
        "\n🎉 Conversion completed successfully!" ∈ (main env fs).stdout) ∧
      ((convert_with_pandoc env fs).ok = false →
        List.IsInfix
          ("\n⚠️  Automatic conversion failed. Using manual instructions..." ::
            manual_conversion_instructions) (main env fs).stdout)) ∧
    ((check_pandoc env).ok = false →
      List.IsInfix
        ("❌ Pandoc not found. Using manual conversion instructions..." ::
          manual_conversion_instructions) (main env fs).stdout ∧
      (main env fs).events.filter isConvertSpawn = []) := by
  by_cases h1 : env.pandocInstalled = true
  · by_cases h2 : env.versionExit = 0
    · by_cases h3 : env.inputExists = true
      · by_cases h4 : env.convertExit = 0
        · rw [check_pandoc_ok env h1 h2, convert_ok env fs h3 h1 h4,
            main_convert_ok env fs h1 h2 h3 h4]
          exact ⟨fun _ => ⟨by simp, fun _ => by simp, fun hc => by simp at hc⟩,
            fun hc => by simp at hc⟩
        · rw [check_pandoc_ok env h1 h2, convert_fail env fs h3 h1 h4,
            main_convert_fail env fs h1 h2 h3 h4]
          refine ⟨fun _ => ⟨by simp, fun hc => by simp at hc, fun _ => ?_⟩,
            fun hc => by simp at hc⟩
          exact ⟨mainHeader ++ ["✅ Pandoc found! Attempting automatic conversion..."] ++
            ["❌ Conversion failed: " ++ env.convertStderr], additional_tips, by simp⟩
      · rw [check_pandoc_ok env h1 h2, convert_no_input env fs (by simpa using h3),
          main_no_input env fs h1 h2 (by simpa using h3)]
        refine ⟨fun _ => ⟨by simp, fun hc => by simp at hc, fun _ => ?_⟩,
          fun hc => by simp at hc⟩
        exact ⟨mainHeader ++ ["✅ Pandoc found! Attempting automatic conversion..."] ++
          ["Error: " ++ input_file ++ " not found!"], additional_tips, by simp⟩
    · rw [check_pandoc_bad_version env h1 h2, main_bad_version env fs h1 h2]
      exact ⟨fun hc => by simp at hc,
        fun _ => ⟨⟨mainHeader, additional_tips, by simp⟩, by rfl⟩⟩
  · rw [check_pandoc_missing env (by simpa using h1), main_no_tool env fs (by simpa using h1)]
    exact ⟨fun hc => by simp at hc,
      fun _ => ⟨⟨mainHeader, additional_tips, by simp⟩, by rfl⟩⟩

theorem claim_C2_witness :
    ("\n🎉 Conversion completed successfully!" ∈ (main envA fs0).stdout) ∧
    (List.IsInfix
      ("❌ Pandoc not found. Using manual conversion instructions..." ::
        manual_conversion_instructions) (main envC fs0).stdout ∧
      (main envC fs0).events.filter isConvertSpawn = []) :=
  ⟨(((claim_C2 envA fs0).1 (by rfl)).2.1) (by rfl), (claim_C2 envC fs0).2 (by rfl)⟩

/-- Claim C6: no error path is fatal: every run returns normally (it never
calls `sys.exit` and every exception the subprocess layer can raise is
caught), and always ends having either confirmed success or printed the
fallback manual instructions. -/
theorem claim_C6 (env : Env) (fs : Fs) :
    (main env fs).sysExitCalled = none ∧
    ("\n🎉 Conversion completed successfully!" ∈ (main env fs).stdout ∨
      List.IsInfix manual_conversion_instructions (main env fs).stdout) := by
  by_cases h1 : env.pandocInstalled = true
  · by_cases h2 : env.versionExit = 0
    · by_cases h3 : env.inputExists = true
      · by_cases h4 : env.convertExit = 0
        · rw [main_convert_ok env fs h1 h2 h3 h4]
          exact ⟨rfl, Or.inl (by simp)⟩
        · rw [main_convert_fail env fs h1 h2 h3 h4]
          exact ⟨rfl, Or.inr ⟨mainHeader ++
            ["✅ Pandoc found! Attempting automatic conversion..."] ++
            ["❌ Conversion failed: " ++ env.convertStderr] ++
            ["\n⚠️  Automatic conversion failed. Using manual instructions..."],
            additional_tips, by simp⟩⟩
      · rw [main_no_input env fs h1 h2 (by simpa using h3)]
        exact ⟨rfl, Or.inr ⟨mainHeader ++
          ["✅ Pandoc found! Attempting automatic conversion..."] ++
          ["Error: " ++ input_file ++ " not found!"] ++
          ["\n⚠️  Automatic conversion failed. Using manual instructions..."],
          additional_tips, by simp⟩⟩
    · rw [main_bad_version env fs h1 h2]
      exact ⟨rfl, Or.inr ⟨mainHeader ++
        ["❌ Pandoc not found. Using manual conversion instructions..."],
        additional_tips, by simp⟩⟩
  · rw [main_no_tool env fs (by simpa using h1)]
    exact ⟨rfl, Or.inr ⟨mainHeader ++
      ["❌ Pandoc not found. Using manual conversion instructions..."],
      additional_tips, by simp⟩⟩

theorem claim_C6_witness :
    (main envB fs0).sysExitCalled = none ∧
    ("\n🎉 Conversion completed successfully!" ∈ (main envB fs0).stdout ∨
      List.IsInfix manual_conversion_instructions (main envB fs0).stdout) :=
  claim_C6 envB fs0

/-- Claim C1 (as stated) is false: in a run where both the input file and
the tool are missing, the program prints the not-found line and the manual
instructions but never reports the missing input file, because
`convert_with_pandoc` — the only place that message is printed — is never
called. -/
theorem claim_C1_counterexample :
    envC.inputExists = false ∧
    ("Error: " ++ input_file ++ " not found!") ∉ (main envC fs0).stdout := by
  refine ⟨rfl, ?_⟩
  rw [main_no_tool envC fs0 rfl]
  decide

/-- Claim C1, amended: whenever the input file does not exist, the program
never spawns the conversion subprocess and emits the manual instructions;
it additionally reports the missing file whenever the tool probe
succeeded (when the probe failed it reports the tool as not found
instead). -/
theorem claim_C1 (env : Env) (fs : Fs) (h : env.inputExists = false) :
    (main env fs).events.filter isConvertSpawn = [] ∧
    List.IsInfix manual_conversion_instructions (main env fs).stdout ∧
    ((check_pandoc env).ok = true →
      ("Error: " ++ input_file ++ " not found!") ∈ (main env fs).stdout) := by
  by_cases h1 : env.pandocInstalled = true
  · by_cases h2 : env.versionExit = 0
    · rw [check_pandoc_ok env h1 h2, main_no_input env fs h1 h2 h]
      exact ⟨by rfl, ⟨mainHeader ++
        ["✅ Pandoc found! Attempting automatic conversion..."] ++
        ["Error: " ++ input_file ++ " not found!"] ++
        ["\n⚠️  Automatic conversion failed. Using manual instructions..."],
        additional_tips, by simp⟩, fun _ => by simp⟩
    · rw [check_pandoc_bad_version env h1 h2, main_bad_version env fs h1 h2]
      exact ⟨by rfl, ⟨mainHeader ++
        ["❌ Pandoc not found. Using manual conversion instructions..."],
        additional_tips, by simp⟩, fun hc => by simp at hc⟩
  · rw [check_pandoc_missing env (by simpa using h1), main_no_tool env fs (by simpa using h1)]
    exact ⟨by rfl, ⟨mainHeader ++
      ["❌ Pandoc not found. Using manual conversion instructions..."],
      additional_tips, by simp⟩, fun hc => by simp at hc⟩

theorem claim_C1_witness :
    ("Error: " ++ input_file ++ " not found!") ∈ (main envD fs0).stdout :=
  (claim_C1 envD fs0 rfl).2.2 (by rfl)

end ConvertToWord
